import Mathlib

set_option maxRecDepth 4000

/-!
Verification development for the PayOS-bun client SDK.

The TypeScript source is embedded shallowly:
* JavaScript payload objects become insertion-ordered association lists
  `List (String × JSVal)` (field names in this SDK are never array-index
  strings, so plain insertion order models JS property order here);
* `node:crypto` HMAC-SHA256 with hex digest is implemented concretely
  over `Nat` bytes;
* each gateway operation becomes a pure function of the client
  credentials, the local arguments and the transport outcome, returning
  `Except Thrown α` where `Thrown` models the raised JS error value.
-/

/-- A scalar JavaScript value as used in the payloads of this SDK:
a string, an integer number, or `undefined` (absent field). -/
inductive JSVal where
  | str (s : String)
  | num (n : Int)
  | undef
deriving DecidableEq

/-- JS string coercion of a scalar, as performed by template literals:
numbers render in plain decimal, `undefined` renders as the literal
text "undefined". -/
def JSVal.toStr : JSVal → String
  | .str s => s
  | .num n => toString n
  | .undef => "undefined"

/-- JS truthiness of a scalar: empty string, zero and undefined are falsy. -/
def JSVal.truthy : JSVal → Bool
  | .str s => s ≠ ""
  | .num n => n ≠ 0
  | .undef => false

/-- A flat JS object, modelled as an insertion-ordered association list. -/
abbrev Obj := List (String × JSVal)

/-- JS property access `o[k]`: the value of key `k`, or `undefined`. -/
def getField (o : Obj) (k : String) : JSVal := (o.lookup k).getD .undef

namespace Crypto

/-- 2^32, the modulus of 32-bit machine words. -/
def M32 : Nat := 4294967296

/-- 32-bit addition. -/
def add32 (a b : Nat) : Nat := (a + b) % M32

/-- 32-bit right rotation (inputs below 2^32). -/
def rotr (n x : Nat) : Nat := (x >>> n) ||| ((x <<< (32 - n)) % M32)

/-- SHA-256 Σ0. -/
def bigS0 (x : Nat) : Nat := (rotr 2 x) ^^^ (rotr 13 x) ^^^ (rotr 22 x)

/-- SHA-256 Σ1. -/
def bigS1 (x : Nat) : Nat := (rotr 6 x) ^^^ (rotr 11 x) ^^^ (rotr 25 x)

/-- SHA-256 σ0. -/
def smallS0 (x : Nat) : Nat := (rotr 7 x) ^^^ (rotr 18 x) ^^^ (x >>> 3)

/-- SHA-256 σ1. -/
def smallS1 (x : Nat) : Nat := (rotr 17 x) ^^^ (rotr 19 x) ^^^ (x >>> 10)

/-- SHA-256 choice function. -/
def chF (e f g : Nat) : Nat := (e &&& f) ^^^ ((e ^^^ 4294967295) &&& g)

/-- SHA-256 majority function. -/
def majF (a b c : Nat) : Nat := (a &&& b) ^^^ (a &&& c) ^^^ (b &&& c)

/-- The 64 SHA-256 round constants. -/
def K : List Nat :=
  [1116352408, 1899447441, 3049323471, 3921009573, 961987163, 1508970993,
   2453635748, 2870763221, 3624381080, 310598401, 607225278, 1426881987,
   1925078388, 2162078206, 2614888103, 3248222580, 3835390401, 4022224774,
   264347078, 604807628, 770255983, 1249150122, 1555081692, 1996064986,
   2554220882, 2821834349, 2952996808, 3210313671, 3336571891, 3584528711,
   113926993, 338241895, 666307205, 773529912, 1294757372, 1396182291,
   1695183700, 1986661051, 2177026350, 2456956037, 2730485921, 2820302411,
   3259730800, 3345764771, 3516065817, 3600352804, 4094571909, 275423344,
   430227734, 506948616, 659060556, 883997877, 958139571, 1322822218,
   1537002063, 1747873779, 1955562222, 2024104815, 2227730452, 2361852424,
   2428436474, 2756734187, 3204031479, 3329325298]

/-- The eight 32-bit words of a SHA-256 state. -/
structure H8 where
  a : Nat
  b : Nat
  c : Nat
  d : Nat
  e : Nat
  f : Nat
  g : Nat
  h : Nat

/-- The SHA-256 initial state. -/
def initH : H8 :=
  ⟨1779033703, 3144134277, 1013904242, 2773480762, 1359893119, 2600822924, 528734635, 1541459225⟩

/-- The 64-word message schedule of one 64-byte block. -/
def msgSchedule (block : List Nat) : List Nat :=
  let w0 := (List.range 16).map (fun i =>
    (block.getD (4 * i) 0) * 16777216 + (block.getD (4 * i + 1) 0) * 65536 +
      (block.getD (4 * i + 2) 0) * 256 + block.getD (4 * i + 3) 0)
  (List.range 48).foldl (fun ws _ =>
    let L := ws.length
    ws ++ [add32 (add32 (smallS1 (ws.getD (L - 2) 0)) (ws.getD (L - 7) 0))
             (add32 (smallS0 (ws.getD (L - 15) 0)) (ws.getD (L - 16) 0))]) w0

/-- SHA-256 compression of one 64-byte block into the running state. -/
def compressBlock (h0 : H8) (block : List Nat) : H8 :=
  let w := msgSchedule block
  let st := (List.range 64).foldl (fun st t =>
    let t1 := add32 st.h (add32 (bigS1 st.e)
      (add32 (chF st.e st.f st.g) (add32 (K.getD t 0) (w.getD t 0))))
    let t2 := add32 (bigS0 st.a) (majF st.a st.b st.c)
    H8.mk (add32 t1 t2) st.a st.b st.c (add32 st.d t1) st.e st.f st.g) h0
  H8.mk (add32 h0.a st.a) (add32 h0.b st.b) (add32 h0.c st.c) (add32 h0.d st.d)
    (add32 h0.e st.e) (add32 h0.f st.f) (add32 h0.g st.g) (add32 h0.h st.h)

/-- SHA-256 padding: append 0x80, zeros, and the 64-bit big-endian bit length. -/
def padMsg (msg : List Nat) : List Nat :=
  let len := msg.length
  let zeros := (119 - len % 64) % 64
  msg ++ 0x80 :: (List.replicate zeros 0 ++
    (List.range 8).map (fun i => ((8 * len) >>> (56 - 8 * i)) % 256))

/-- Big-endian byte serialization of a 32-bit word. -/
def wordBytes (x : Nat) : List Nat := [(x >>> 24) % 256, (x >>> 16) % 256, (x >>> 8) % 256, x % 256]

/-- SHA-256 of a byte sequence, as 32 output bytes. -/
def sha256Bytes (msg : List Nat) : List Nat :=
  let padded := padMsg msg
  let fin := (List.range (padded.length / 64)).foldl
    (fun h i => compressBlock h ((padded.drop (64 * i)).take 64)) initH
  wordBytes fin.a ++ wordBytes fin.b ++ wordBytes fin.c ++ wordBytes fin.d ++
    wordBytes fin.e ++ wordBytes fin.f ++ wordBytes fin.g ++ wordBytes fin.h

/-- The sixteen lowercase hex digit characters. -/
def hexDigits : List Char := "0123456789abcdef".data

/-- Lowercase hex rendering of a byte list, two digits per byte. -/
def hexOfBytes : List Nat → List Char
  | [] => []
  | b :: bs => hexDigits.getD (b / 16 % 16) '0' :: hexDigits.getD (b % 16) '0' :: hexOfBytes bs

/-- Lowercase hex string of a byte list (the digest hex format of node crypto). -/
def bytesToHex (bs : List Nat) : String := String.mk (hexOfBytes bs)

/-- UTF-8 encoding of one unicode scalar value. -/
def utf8Encode (c : Char) : List Nat :=
  let n := c.toNat
  if n < 128 then [n]
  else if n < 2048 then [192 + n / 64, 128 + n % 64]
  else if n < 65536 then [224 + n / 4096, 128 + n / 64 % 64, 128 + n % 64]
  else [240 + n / 262144, 128 + n / 4096 % 64, 128 + n / 64 % 64, 128 + n % 64]

/-- UTF-8 bytes of a string, as node crypto consumes string inputs. -/
def strBytes (s : String) : List Nat := (s.data.map utf8Encode).flatten

/-- HMAC-SHA256 over byte sequences. -/
def hmacSha256 (key msg : List Nat) : List Nat :=
  let k0 := if 64 < key.length then sha256Bytes key else key
  let kp := k0 ++ List.replicate (64 - k0.length) 0
  sha256Bytes ((kp.map (fun b => b ^^^ 92)) ++ sha256Bytes ((kp.map (fun b => b ^^^ 54)) ++ msg))

/-- Hex HMAC-SHA256 of string key and message, i.e.
createHmac of sha256 with the key, update with the message, digest hex. -/
def hmacSha256Hex (key msg : String) : String := bytesToHex (hmacSha256 (strBytes key) (strBytes msg))

end Crypto

/-- FIPS 180-4 test vector: SHA-256 of "abc". -/
theorem sha256_abc_vector :
    Crypto.bytesToHex (Crypto.sha256Bytes (Crypto.strBytes "abc")) =
      "ba7816bf8f01cfea414140de5dae2223b00361a396177a9cb410ff61f20015ad" := by decide

/-- RFC 4231 test case 2: HMAC-SHA256 with key "Jefe". -/
theorem hmac_jefe_vector :
    Crypto.hmacSha256Hex "Jefe" "what do ya want for nothing?" =
      "5bdcc146bf60754e6a042426089575c75a003f089d2739839dec58b964ec3843" := by decide

/-- RFC 4231 test case 1: HMAC-SHA256 with a 20-byte 0x0b key. -/
theorem hmac_rfc4231_tc1_vector :
    Crypto.bytesToHex (Crypto.hmacSha256 (List.replicate 20 11) (Crypto.strBytes "Hi There")) =
      "b0344c61d8db38535ca8afceaf0bf12b881dc200c9833da726e9376c2e32cff7" := by decide

/-- Comparison key of one scalar value under the JS default string order,
which compares UTF-16 code units: a basic-plane scalar compares as its own
code point, a supplementary-plane scalar as its surrogate pair. The key
packs the (first unit, second unit) pair into one number; basic-plane
scalars never collide with high surrogates, so the packing is faithful. -/
def u16key (c : Char) : Nat :=
  if c.toNat < 65536 then c.toNat * 1024
  else (55296 + (c.toNat - 65536) / 1024) * 1024 + (c.toNat - 65536) % 1024

/-- The per-character comparison keys of a string. -/
def strKey (s : String) : List Nat := s.data.map u16key

/-- Lexicographic comparison of key lists. -/
def leU : List Nat → List Nat → Bool
  | [], _ => true
  | _ :: _, [] => false
  | a :: as, b :: bs => if a < b then true else if b < a then false else leU as bs

/-- The JS default string comparator used by Array.sort with no argument:
lexicographic comparison of UTF-16 code units. -/
def jsLe (s t : String) : Prop := leU (strKey s) (strKey t) = true

instance : DecidableRel jsLe := fun s t => inferInstanceAs (Decidable (_ = true))

theorem leU_total : ∀ as bs : List Nat, leU as bs = true ∨ leU bs as = true := by
  intro as
  induction as with
  | nil => intro bs; left; rfl
  | cons a as ih =>
    intro bs
    cases bs with
    | nil => right; rfl
    | cons b bs =>
      by_cases hab : a < b
      · left; simp [leU, hab]
      · by_cases hba : b < a
        · right; simp [leU, hba]
        · have : a = b := by omega
          subst this
          rcases ih bs with h | h
          · left; simpa [leU] using h
          · right; simpa [leU] using h

theorem leU_trans : ∀ as bs cs : List Nat,
    leU as bs = true → leU bs cs = true → leU as cs = true := by
  intro as
  induction as with
  | nil => intro bs cs _ _; rfl
  | cons a as ih =>
    intro bs cs h1 h2
    cases bs with
    | nil => simp [leU] at h1
    | cons b bs =>
      cases cs with
      | nil => simp [leU] at h2
      | cons c cs =>
        simp only [leU] at h1 h2 ⊢
        split at h1
        · split
          · rfl
          · split at h2
            · omega
            · split at h2
              · exact absurd h2 (by simp)
              · split
                · exact absurd h1 (by omega)
                · omega
        · split at h1
          · exact absurd h1 (by simp)
          · split at h2
            · split
              · rfl
              · omega
            · split at h2
              · exact absurd h2 (by simp)
              · split
                · rfl
                · split
                  · omega
                  · exact ih bs cs h1 h2

theorem leU_antisymm : ∀ as bs : List Nat, leU as bs = true → leU bs as = true → as = bs := by
  intro as
  induction as with
  | nil =>
    intro bs _ h2
    cases bs with
    | nil => rfl
    | cons b bs => simp [leU] at h2
  | cons a as ih =>
    intro bs h1 h2
    cases bs with
    | nil => simp [leU] at h1
    | cons b bs =>
      simp only [leU] at h1 h2
      split at h1
      · split at h2 <;> simp_all <;> omega
      · split at h1
        · exact absurd h1 (by simp)
        · have hab : a = b := by omega
          subst hab
          simp only [if_neg (lt_irrefl a)] at h2
          exact congrArg (a :: ·) (ih bs h1 h2)

theorem u16key_inj : ∀ c1 c2 : Char, u16key c1 = u16key c2 → c1 = c2 := by
  intro c1 c2 h
  have hv1 := c1.valid
  have hv2 := c2.valid
  unfold Nat.isValidChar at hv1 hv2
  have hn1 : Char.toNat c1 = c1.val.toNat := rfl
  have hn2 : Char.toNat c2 = c2.val.toNat := rfl
  have : Char.toNat c1 = Char.toNat c2 := by
    unfold u16key at h
    rw [hn1, hn2] at h ⊢
    split at h <;> split at h <;> omega
  apply Char.eq_of_val_eq
  apply UInt32.toNat.inj
  rw [← hn1, ← hn2, this]

theorem strKey_inj : ∀ s t : String, strKey s = strKey t → s = t := by
  intro s t h
  have hd : s.data = t.data := by
    have := List.map_injective_iff.mpr (fun c1 c2 => u16key_inj c1 c2)
    exact this h
  cases s; cases t; exact congrArg String.mk hd

instance : IsTotal String jsLe := ⟨fun s t => leU_total (strKey s) (strKey t)⟩

instance : IsTrans String jsLe :=
  ⟨fun s t u h1 h2 => leU_trans (strKey s) (strKey t) (strKey u) h1 h2⟩

instance : IsAntisymm String jsLe :=
  ⟨fun s t h1 h2 => strKey_inj s t (leU_antisymm (strKey s) (strKey t) h1 h2)⟩

/-- The canonical array-index reading of a property key, as ECMAScript
property enumeration uses it: the key must be the canonical decimal
string of an integer below 2^32 - 1. -/
def jsArrayIndex (s : String) : Option Nat :=
  let n := s.data.foldl (fun a c => a * 10 + (c.toNat - 48)) 0
  if toString n = s ∧ n ≤ 4294967294 then some n else none

/-- Numeric comparison of two array-index keys. -/
def idxNumLe (a b : String) : Prop := (jsArrayIndex a).getD 0 ≤ (jsArrayIndex b).getD 0

instance : DecidableRel idxNumLe := fun a b => inferInstanceAs (Decidable (_ ≤ _))

instance : IsTotal String idxNumLe := ⟨fun _ _ => Nat.le_total _ _⟩

instance : IsTrans String idxNumLe := ⟨fun _ _ _ h1 h2 => Nat.le_trans h1 h2⟩

/-- ECMAScript own-property enumeration order over a key insertion
sequence: array-index keys first in ascending numeric order, then the
remaining keys in insertion order. -/
def jsKeyOrder (ks : List String) : List String :=
  List.insertionSort idxNumLe (ks.filter (fun k => (jsArrayIndex k).isSome)) ++
    ks.filter (fun k => !(jsArrayIndex k).isSome)

/-- Object.keys of the object built by inserting the listed pairs in
order: the ECMAScript enumeration of its property keys. -/
def objectKeys (o : Obj) : List String := jsKeyOrder (o.map Prod.fst)

/-- The entries of an object in enumeration order, each value resolved by
property access. -/
def jsEntries (o : Obj) : Obj := (objectKeys o).map (fun k => (k, getField o k))

/-- sortObjectByKey from the source: take Object.keys of the object, sort
them with the JS default comparator, and rebuild the object by inserting
the pairs in that key order with values unchanged (the rebuilt object
then enumerates its own keys per jsKeyOrder). -/
def sortObjectByKey (o : Obj) : Obj :=
  (List.insertionSort jsLe (objectKeys o)).map (fun k => (k, getField o k))

/-- objectToQueryString from the source: map Object.keys of the object to
key=value strings and join them with ampersands. -/
def objectToQueryString (o : Obj) : String :=
  String.intercalate "&" ((objectKeys o).map (fun k => k ++ "=" ++ (getField o k).toStr))

/-- createSignatureFromObject from the source: null when the data argument
is falsy or the key is empty; otherwise the hex HMAC-SHA256 digest of the
sorted query-string form of the data. -/
def createSignatureFromObject (data : Option Obj) (key : String) : Option String :=
  match data with
  | none => none
  | some d =>
    if key.length = 0 then none
    else some (Crypto.hmacSha256Hex key (objectToQueryString (sortObjectByKey d)))

/-- createSignatureOfPaymentRequest from the source: null when the data
argument is falsy or the key is empty; otherwise the hex HMAC-SHA256
digest of the five payment fields rendered in a fixed order with no
sorting applied. -/
def createSignatureOfPaymentRequest (data : Option Obj) (key : String) : Option String :=
  match data with
  | none => none
  | some d =>
    if key.length = 0 then none
    else some (Crypto.hmacSha256Hex key
      ("amount=" ++ (getField d "amount").toStr ++
        "&cancelUrl=" ++ (getField d "cancelUrl").toStr ++
        "&description=" ++ (getField d "description").toStr ++
        "&orderCode=" ++ (getField d "orderCode").toStr ++
        "&returnUrl=" ++ (getField d "returnUrl").toStr))

-- The fixed error message table of the source (constants.ts).
namespace ERROR_MESSAGE

def NO_SIGNATURE : String := "No signature."

def NO_DATA : String := "No data."

def INVALID_SIGNATURE : String := "Invalid signature."

def DATA_NOT_INTEGRITY : String :=
  "The data is unreliable because the signature of the response does not match the signature of the data."

def WEBHOOK_URL_INVALID : String := "Webhook URL invalid."

def UNAUTHORIZED : String := "Unauthorized."

def INTERNAL_SERVER_ERROR : String := "Internal Server Error."

def INVALID_PARAMETER : String := "Invalid Parameter."

end ERROR_MESSAGE

-- The fixed error code table of the source (constants.ts).
namespace ERROR_CODE

def INTERNAL_SERVER_ERROR : String := "20"

def UNAUTHORIZED : String := "401"

end ERROR_CODE

/-- The fixed gateway base URL of the source (constants.ts). -/
def PAYOS_API_URL : String := "https://api-merchant.payos.vn"

/-- The client credentials held by a PayOS instance. -/
structure PayOS where
  clientId : String
  apiKey : String
  checksumKey : String

/-- A raised JS error value: either a plain Error with a message, or a
PayOSError carrying a gateway code and a message. -/
inductive Thrown where
  | jsError (message : String)
  | payosError (code : String) (message : String)
deriving DecidableEq

/-- The message property of a raised error (PayOSError passes its message
to the base Error constructor). -/
def Thrown.messageOf : Thrown → String
  | .jsError m => m
  | .payosError _ m => m

/-- The parsed gateway response envelope: code, desc, data, signature.
The data and signature fields may be absent from the JSON body. -/
structure Envelope where
  code : String
  desc : String
  data : Option Obj
  signature : Option String

/-- The shape the catch blocks probe on a transport failure, after the
source extracts errorData from the caught value: an optional HTTP status
and an optional message. -/
structure ErrData where
  status : Option Nat
  message : Option String

/-- Outcome of the awaited fetch plus JSON parse: a parsed envelope, or a
transport failure carrying the extracted errorData. -/
inductive FetchOutcome where
  | ok (env : Envelope)
  | fail (e : ErrData)

/-- The JS strict equality test the integrity check performs between the
recomputed signature (a string or null) and the response signature (a
string or undefined): null equals neither undefined nor any string, so
the test holds exactly when both are strings and equal. -/
def sigMatches : Option String → Option String → Bool
  | some a, some b => a == b
  | _, _ => false

/-- The catch-block rewrap of an error the operation itself threw inside
try: errorData is the error (it has no response property), and a new
plain Error is built from its message; an empty message is falsy, in
which case the Error is built from the error object itself. -/
def rewrap (t : Thrown) : Thrown :=
  .jsError (if t.messageOf = "" then "Error" else t.messageOf)

/-- The catch-block rewrap of a transport failure: a new plain Error built
from the extracted message when it is truthy, else from the object. -/
def rewrapFail (e : ErrData) : Thrown :=
  .jsError (match e.message with
    | some m => if m = "" then "Error" else m
    | none => "Error")

/-- The shared response-processing step of the three payment operations:
on code "00" recompute the signature of data under the checksum key,
throw DATA_NOT_INTEGRITY on mismatch, return data when present; any
other path throws a PayOSError carrying the envelope code and desc. -/
def processEnvelope (chk : String) (env : Envelope) : Except Thrown Obj :=
  if env.code = "00" then
    if sigMatches (createSignatureFromObject env.data chk) env.signature then
      match env.data with
      | some d => .ok d
      | none => .error (.payosError env.code env.desc)
    else .error (.jsError ERROR_MESSAGE.DATA_NOT_INTEGRITY)
  else .error (.payosError env.code env.desc)

/-- The try/catch body shared by the three payment operations: process the
transport outcome, rewrapping anything thrown into a plain Error. -/
def handleOutcome (chk : String) (outcome : FetchOutcome) : Except Thrown Obj :=
  match outcome with
  | .ok env =>
    match processEnvelope chk env with
    | .ok d => .ok d
    | .error t => .error (rewrap t)
  | .fail e => .error (rewrapFail e)

/-- The five required checkout fields, in source order. -/
def requiredFields : List String := ["amount", "cancelUrl", "description", "orderCode", "returnUrl"]

/-- createPaymentLink from the source: reject when a required field is
absent or falsy, listing the offending field names; otherwise sign the
payload, post it, and verify the response. The transport interaction is
supplied as the outcome argument. -/
def PayOS.createPaymentLink (c : PayOS) (paymentData : Obj) (outcome : FetchOutcome) :
    Except Thrown Obj :=
  if requiredFields.any (fun k => !(getField paymentData k).truthy) then
    .error (.jsError ("The following fields are required: " ++
      String.intercalate ", " (requiredFields.filter (fun k => !(getField paymentData k).truthy))))
  else handleOutcome c.checksumKey outcome

/-- An orderId argument: a JS number (modelled as a rational, so that
non-integer numbers are expressible) or a JS string. -/
inductive OrderId where
  | num (q : Rat)
  | str (s : String)

/-- The orderId validation test of getPaymentLinkInformation, written as in
the source: falsy orderId, or a number that is not a positive integer,
or a string of length zero. -/
def invalidOrderIdGet : OrderId → Bool
  | .num q => decide (q = 0) || (!decide (q.den = 1) || decide (q ≤ 0))
  | .str s => decide (s = "") || decide (s.length = 0)

/-- The orderId validation test of cancelPaymentLink, written as in the
source (the same expression, duplicated there). -/
def invalidOrderIdCancel : OrderId → Bool
  | .num q => decide (q = 0) || (!decide (q.den = 1) || decide (q ≤ 0))
  | .str s => decide (s = "") || decide (s.length = 0)

/-- getPaymentLinkInformation from the source: validate the orderId, then
fetch and verify the response. -/
def PayOS.getPaymentLinkInformation (c : PayOS) (orderId : OrderId) (outcome : FetchOutcome) :
    Except Thrown Obj :=
  if invalidOrderIdGet orderId then .error (.jsError ERROR_MESSAGE.INVALID_PARAMETER)
  else handleOutcome c.checksumKey outcome

/-- cancelPaymentLink from the source: validate the orderId, then post the
optional cancellation reason and verify the response. -/
def PayOS.cancelPaymentLink (c : PayOS) (orderId : OrderId) (cancellationReason : Option String)
    (outcome : FetchOutcome) : Except Thrown Obj :=
  if invalidOrderIdCancel orderId then .error (.jsError ERROR_MESSAGE.INVALID_PARAMETER)
  else handleOutcome c.checksumKey outcome

/-- The JS String startsWith test, stated on the character lists (for a
well-formed prefix argument the two agree). -/
def strStartsWith (s t : String) : Bool := t.data.isPrefixOf s.data

/-- confirmWebhook from the source: reject an empty webhookUrl, post it,
and return it; on a transport failure map status 400, status 401 and a
status whose decimal text starts with the digit five to PayOSErrors, and
anything else to a plain Error. -/
def PayOS.confirmWebhook (c : PayOS) (webhookUrl : String) (outcome : FetchOutcome) :
    Except Thrown String :=
  if decide (webhookUrl = "") || decide (webhookUrl.length = 0) then
    .error (.jsError ERROR_MESSAGE.INVALID_PARAMETER)
  else
    match outcome with
    | .ok _ => .ok webhookUrl
    | .fail e =>
      if e.status == some 400 then
        .error (.payosError ERROR_CODE.INTERNAL_SERVER_ERROR ERROR_MESSAGE.WEBHOOK_URL_INVALID)
      else if e.status == some 401 then
        .error (.payosError ERROR_CODE.UNAUTHORIZED ERROR_MESSAGE.UNAUTHORIZED)
      else if (match e.status with | some n => strStartsWith (toString n) "5" | none => false) then
        .error (.payosError ERROR_CODE.INTERNAL_SERVER_ERROR ERROR_MESSAGE.INTERNAL_SERVER_ERROR)
      else .error (rewrapFail e)

/-- The webhook body handed to verifyWebhookData: a data object and a
signature, either of which may be absent. -/
structure WebhookBody where
  data : Option Obj
  signature : Option String

/-- verifyWebhookData from the source: throw NO_DATA when data is absent,
throw DATA_NOT_INTEGRITY when the recomputed signature does not strictly
equal the supplied one, else return the data. No try/catch and no
transport interaction is involved. -/
def PayOS.verifyWebhookData (c : PayOS) (webhookBody : WebhookBody) : Except Thrown Obj :=
  match webhookBody.data with
  | none => .error (.jsError ERROR_MESSAGE.NO_DATA)
  | some d =>
    if sigMatches (createSignatureFromObject (some d) c.checksumKey) webhookBody.signature then
      .ok d
    else .error (.jsError ERROR_MESSAGE.DATA_NOT_INTEGRITY)

theorem lookup_eq_some_of_mem_nodup (o : Obj) (k : String) (v : JSVal)
    (hnd : (o.map Prod.fst).Nodup) (hmem : (k, v) ∈ o) : o.lookup k = some v := by
  induction o with
  | nil => simp at hmem
  | cons kv o ih =>
    obtain ⟨k0, v0⟩ := kv
    simp only [List.map_cons, List.nodup_cons] at hnd
    rcases List.mem_cons.mp hmem with h | h
    · injection h with h1 h2
      subst h1; subst h2
      simp [List.lookup]
    · have hne : k ≠ k0 := by
        intro he
        subst he
        exact hnd.1 (List.mem_map_of_mem Prod.fst h)
      simp only [List.lookup, beq_eq_false_iff_ne.mpr hne]
      exact ih hnd.2 h

theorem mem_of_lookup_eq_some (o : Obj) (k : String) (v : JSVal)
    (hv : o.lookup k = some v) : (k, v) ∈ o := by
  induction o with
  | nil => simp [List.lookup] at hv
  | cons kv o ih =>
    obtain ⟨k0, v0⟩ := kv
    by_cases hk : k = k0
    · subst hk
      have hvv : v0 = v := by simpa [List.lookup] using hv
      subst hvv
      exact List.mem_cons_self (k, v0) o
    · simp only [List.lookup, beq_eq_false_iff_ne.mpr hk] at hv
      exact List.mem_cons_of_mem _ (ih hv)

theorem lookup_eq_none_iff (o : Obj) (k : String) :
    o.lookup k = none ↔ k ∉ o.map Prod.fst := by
  induction o with
  | nil => simp [List.lookup]
  | cons kv o ih =>
    obtain ⟨k0, v0⟩ := kv
    by_cases hk : k = k0
    · subst hk
      simp [List.lookup]
    · simp [List.lookup, beq_eq_false_iff_ne.mpr hk, hk, ih]

theorem getField_eq_of_perm (o o2 : Obj) (k : String)
    (hnd : (o.map Prod.fst).Nodup) (hperm : o.Perm o2) : getField o k = getField o2 k := by
  have hnd2 : (o2.map Prod.fst).Nodup := ((hperm.map Prod.fst).nodup_iff).mp hnd
  unfold getField
  rcases hv : o.lookup k with _ | v
  · have hk : k ∉ o.map Prod.fst := (lookup_eq_none_iff o k).mp hv
    have hk2 : k ∉ o2.map Prod.fst := fun h => hk ((hperm.map Prod.fst).mem_iff.mpr h)
    rw [(lookup_eq_none_iff o2 k).mpr hk2]
  · have hmem : (k, v) ∈ o := mem_of_lookup_eq_some o k v hv
    have hmem2 : (k, v) ∈ o2 := hperm.mem_iff.mp hmem
    rw [lookup_eq_some_of_mem_nodup o2 k v hnd2 hmem2]

theorem map_keys_getField (o : Obj) (hnd : (o.map Prod.fst).Nodup) :
    (o.map Prod.fst).map (fun k => (k, getField o k)) = o := by
  induction o with
  | nil => rfl
  | cons kv o ih =>
    obtain ⟨k0, v0⟩ := kv
    simp only [List.map_cons, List.nodup_cons] at hnd
    simp only [List.map_cons]
    have h0 : getField ((k0, v0) :: o) k0 = v0 := by simp [getField, List.lookup]
    rw [h0]
    have hrest : ∀ k, k ∈ o.map Prod.fst → getField ((k0, v0) :: o) k = getField o k := by
      intro k hk
      have hne : k ≠ k0 := by
        intro he
        subst he
        exact hnd.1 hk
      simp [getField, List.lookup, beq_eq_false_iff_ne.mpr hne]
    have htail : (o.map Prod.fst).map (fun k => (k, getField ((k0, v0) :: o) k)) =
        (o.map Prod.fst).map (fun k => (k, getField o k)) := by
      apply List.map_congr_left
      intro k hk
      rw [hrest k hk]
    rw [htail, ih hnd.2]

theorem handleOutcome_ok_iff (chk : String) (env : Envelope) (d : Obj) :
    handleOutcome chk (.ok env) = .ok d ↔
      env.code = "00" ∧
        sigMatches (createSignatureFromObject env.data chk) env.signature = true ∧
        env.data = some d := by
  simp only [handleOutcome, processEnvelope]
  by_cases h1 : env.code = "00"
  · rw [if_pos h1]
    by_cases h2 : sigMatches (createSignatureFromObject env.data chk) env.signature = true
    · rw [if_pos h2]
      rcases hd : env.data with _ | d0
      · simp [h1, h2, hd]
      · rw [hd] at h2
        simp [h1, h2, hd]
    · rw [if_neg h2]
      simp [h1, h2]
  · rw [if_neg h1]
    simp [h1]

theorem handleOutcome_mismatch (chk : String) (env : Envelope)
    (h1 : env.code = "00")
    (h2 : sigMatches (createSignatureFromObject env.data chk) env.signature = false) :
    handleOutcome chk (.ok env) = .error (.jsError ERROR_MESSAGE.DATA_NOT_INTEGRITY) := by
  simp only [handleOutcome, processEnvelope]
  rw [if_pos h1, h2]
  simp only [Bool.false_eq_true, if_false]
  unfold rewrap Thrown.messageOf
  rw [if_neg (by decide)]

theorem handleOutcome_badCode (chk : String) (env : Envelope)
    (h1 : env.code ≠ "00") :
    handleOutcome chk (.ok env) =
      .error (.jsError (if env.desc = "" then "Error" else env.desc)) := by
  simp only [handleOutcome, processEnvelope]
  rw [if_neg h1]
  show Except.error (rewrap (Thrown.payosError env.code env.desc)) = _
  simp only [rewrap, Thrown.messageOf]

theorem jsKeyOrder_perm (ks : List String) : List.Perm (jsKeyOrder ks) ks := by
  unfold jsKeyOrder
  exact ((List.perm_insertionSort idxNumLe _).append_right _).trans
    (List.filter_append_perm _ ks)

theorem objectKeys_perm (o : Obj) : List.Perm (objectKeys o) (o.map Prod.fst) :=
  jsKeyOrder_perm (o.map Prod.fst)

theorem sortObjectByKey_keys (o : Obj) :
    (sortObjectByKey o).map Prod.fst = List.insertionSort jsLe (objectKeys o) := by
  unfold sortObjectByKey
  rw [List.map_map]
  rw [show (Prod.fst ∘ fun k => (k, getField o k)) = id from rfl, List.map_id]

theorem sortObjectByKey_keys_sorted (o : Obj) :
    ((sortObjectByKey o).map Prod.fst).Sorted jsLe := by
  rw [sortObjectByKey_keys]
  exact List.sorted_insertionSort jsLe (objectKeys o)

theorem sortObjectByKey_perm (o : Obj) (hnd : (o.map Prod.fst).Nodup) :
    (sortObjectByKey o).Perm o := by
  unfold sortObjectByKey
  have h1 : List.Perm ((List.insertionSort jsLe (objectKeys o)).map (fun k => (k, getField o k)))
      ((o.map Prod.fst).map (fun k => (k, getField o k))) :=
    ((List.perm_insertionSort jsLe (objectKeys o)).trans (objectKeys_perm o)).map _
  rw [map_keys_getField o hnd] at h1
  exact h1

theorem objectToQueryString_entries (o : Obj) :
    objectToQueryString o =
      String.intercalate "&" ((jsEntries o).map (fun pr => pr.1 ++ "=" ++ pr.2.toStr)) := by
  unfold objectToQueryString jsEntries
  congr 1
  rw [List.map_map]
  rfl

theorem insertionSort_eq_of_perm (l1 l2 : List String) (h : l1.Perm l2) :
    List.insertionSort jsLe l1 = List.insertionSort jsLe l2 :=
  List.eq_of_perm_of_sorted
    (((List.perm_insertionSort jsLe l1).trans h).trans (List.perm_insertionSort jsLe l2).symm)
    (List.sorted_insertionSort jsLe l1) (List.sorted_insertionSort jsLe l2)

theorem sortObjectByKey_eq_of_perm (o o2 : Obj) (hnd : (o.map Prod.fst).Nodup)
    (hperm : o.Perm o2) : sortObjectByKey o = sortObjectByKey o2 := by
  unfold sortObjectByKey
  rw [insertionSort_eq_of_perm _ _
    ((objectKeys_perm o).trans ((hperm.map Prod.fst).trans (objectKeys_perm o2).symm))]
  apply List.map_congr_left
  intro k hk
  rw [getField_eq_of_perm o o2 k hnd hperm]

theorem string_length_eq_zero_iff (s : String) : s.length = 0 ↔ s = "" := by
  constructor
  · intro h
    cases s with
    | mk l =>
      have hl : l = [] := List.length_eq_zero.mp h
      rw [hl]
  · intro h
    rw [h]
    rfl

theorem hexDigits_getD_mem (i : Nat) : Crypto.hexDigits.getD i '0' ∈ Crypto.hexDigits := by
  by_cases hi : i < Crypto.hexDigits.length
  · rw [List.getD_eq_getElem _ _ hi]
    exact List.getElem_mem hi
  · rw [List.getD_eq_default _ _ (Nat.le_of_not_lt hi)]
    decide

theorem hexOfBytes_mem (bs : List Nat) : ∀ ch ∈ Crypto.hexOfBytes bs, ch ∈ Crypto.hexDigits := by
  induction bs with
  | nil => intro ch hch; simp [Crypto.hexOfBytes] at hch
  | cons b bs ih =>
    intro ch hch
    rcases List.mem_cons.mp hch with h | hch2
    · rw [h]; exact hexDigits_getD_mem _
    · rcases List.mem_cons.mp hch2 with h | h
      · rw [h]; exact hexDigits_getD_mem _
      · exact ih ch h

theorem hexOfBytes_length (bs : List Nat) : (Crypto.hexOfBytes bs).length = 2 * bs.length := by
  induction bs with
  | nil => rfl
  | cons b bs ih => simp [Crypto.hexOfBytes, ih]; omega

theorem sha256Bytes_length (m : List Nat) : (Crypto.sha256Bytes m).length = 32 := by
  simp [Crypto.sha256Bytes, Crypto.wordBytes]

theorem hmacSha256_length (k m : List Nat) : (Crypto.hmacSha256 k m).length = 32 := by
  simp only [Crypto.hmacSha256]
  exact sha256Bytes_length _

theorem hmacSha256Hex_hex (key msg : String) :
    (Crypto.hmacSha256Hex key msg).length = 64 ∧
      ∀ ch ∈ (Crypto.hmacSha256Hex key msg).data, ch ∈ Crypto.hexDigits := by
  unfold Crypto.hmacSha256Hex Crypto.bytesToHex
  constructor
  · show (Crypto.hexOfBytes _).length = 64
    rw [hexOfBytes_length, hmacSha256_length]
  · exact hexOfBytes_mem _

/-- Claim C6: verifyWebhookData is pure and synchronous (in this embedding
it is a function of the body and the credentials alone, taking no
transport outcome); a missing data field raises the error "No data.";
a present data field whose recomputed signature differs from the supplied
one raises the exact fixed integrity message; matching signatures return
the data unchanged. -/
theorem claim_c6_verifyWebhookData (c : PayOS) (body : WebhookBody) (d : Obj) :
    (body.data = none → c.verifyWebhookData body = .error (.jsError "No data.")) ∧
    (body.data = some d →
      (sigMatches (createSignatureFromObject (some d) c.checksumKey) body.signature = false →
        c.verifyWebhookData body = .error (.jsError
          "The data is unreliable because the signature of the response does not match the signature of the data.")) ∧
      (sigMatches (createSignatureFromObject (some d) c.checksumKey) body.signature = true →
        c.verifyWebhookData body = .ok d)) := by
  refine ⟨fun hd => ?_, fun hd => ⟨fun hs => ?_, fun hs => ?_⟩⟩
  · simp [PayOS.verifyWebhookData, hd, ERROR_MESSAGE.NO_DATA]
  · simp [PayOS.verifyWebhookData, hd, hs, ERROR_MESSAGE.DATA_NOT_INTEGRITY]
  · simp [PayOS.verifyWebhookData, hd, hs]

/-- Witness for C6: on a concrete webhook body carrying the correct
HMAC-SHA256 signature of its data, verifyWebhookData returns the data. -/
theorem claim_c6_witness :
    (PayOS.mk "cid" "api" "k").verifyWebhookData
      ⟨some [("a", .str "b")],
        some "9055a9e8bdf0e7d125445fcaee1c8922a856d6c0d6a6c33f0c71a6fac8b557d0"⟩ =
      .ok [("a", .str "b")] :=
  ((claim_c6_verifyWebhookData (PayOS.mk "cid" "api" "k")
      ⟨some [("a", .str "b")],
        some "9055a9e8bdf0e7d125445fcaee1c8922a856d6c0d6a6c33f0c71a6fac8b557d0"⟩
      [("a", .str "b")]).2 rfl).2 (by decide)

/-- Claim C7: both signer entry points return null exactly when the payload
argument is absent or the key is empty (they raise nothing: both are total
functions), and on a present payload with a non-empty key they return a
string of 64 lowercase hex digits. -/
theorem claim_c7_signers (data : Option Obj) (key : String) :
    (createSignatureFromObject data key = none ↔ (data = none ∨ key = "")) ∧
    (createSignatureOfPaymentRequest data key = none ↔ (data = none ∨ key = "")) ∧
    (∀ d : Obj, data = some d → key ≠ "" →
      (∃ s, createSignatureFromObject data key = some s ∧
        s.length = 64 ∧ ∀ ch ∈ s.data, ch ∈ Crypto.hexDigits) ∧
      (∃ s, createSignatureOfPaymentRequest data key = some s ∧
        s.length = 64 ∧ ∀ ch ∈ s.data, ch ∈ Crypto.hexDigits)) := by
  have hkey : (key.length = 0) ↔ key = "" := string_length_eq_zero_iff key
  refine ⟨?_, ?_, ?_⟩
  · rcases data with _ | d
    · simp [createSignatureFromObject]
    · by_cases hk : key = ""
      · simp [createSignatureFromObject, hkey.mpr hk, hk]
      · rw [createSignatureFromObject]
        rw [if_neg (fun h => hk (hkey.mp h))]
        simp [hk]
  · rcases data with _ | d
    · simp [createSignatureOfPaymentRequest]
    · by_cases hk : key = ""
      · simp [createSignatureOfPaymentRequest, hkey.mpr hk, hk]
      · rw [createSignatureOfPaymentRequest]
        rw [if_neg (fun h => hk (hkey.mp h))]
        simp [hk]
  · intro d hd hk
    subst hd
    constructor
    · rw [createSignatureFromObject, if_neg (fun h => hk (hkey.mp h))]
      exact ⟨_, rfl, (hmacSha256Hex_hex _ _).1, (hmacSha256Hex_hex _ _).2⟩
    · rw [createSignatureOfPaymentRequest, if_neg (fun h => hk (hkey.mp h))]
      exact ⟨_, rfl, (hmacSha256Hex_hex _ _).1, (hmacSha256Hex_hex _ _).2⟩

/-- Witness for C7: on a concrete payload and key, both signers return a
64-character digest, and the null guard fires exactly on the empty key. -/
theorem claim_c7_witness :
    (∃ s, createSignatureFromObject (some [("a", JSVal.str "b")]) "k" = some s ∧
      s.length = 64 ∧ ∀ ch ∈ s.data, ch ∈ Crypto.hexDigits) ∧
    (createSignatureFromObject (some [("a", JSVal.str "b")]) "" = none ↔
      (some [("a", JSVal.str "b")] = none ∨ ("" : String) = "")) :=
  ⟨((claim_c7_signers (some [("a", JSVal.str "b")]) "k").2.2 _ rfl (by decide)).1,
    (claim_c7_signers (some [("a", JSVal.str "b")]) "").1⟩

/-- Claim C9: when any required checkout field is absent or falsy,
createPaymentLink raises before any signing or transport activity (its
result does not depend on the transport outcome), and the message lists
exactly the required field names that are absent or falsy. -/
theorem claim_c9_missing_fields (c : PayOS) (p : Obj) (outcome : FetchOutcome)
    (h : requiredFields.filter (fun k => !(getField p k).truthy) ≠ []) :
    c.createPaymentLink p outcome = .error (.jsError ("The following fields are required: " ++
        String.intercalate ", " (requiredFields.filter (fun k => !(getField p k).truthy)))) ∧
    ∀ k, (k ∈ requiredFields.filter (fun k => !(getField p k).truthy)) ↔
      (k ∈ requiredFields ∧ (getField p k).truthy = false) := by
  constructor
  · have hany : (requiredFields.any fun k => !(getField p k).truthy) = true := by
      rw [List.any_eq_true]
      rcases List.exists_mem_of_ne_nil _ h with ⟨k, hk⟩
      exact ⟨k, (List.mem_filter.mp hk).1, (List.mem_filter.mp hk).2⟩
    simp [PayOS.createPaymentLink, hany]
  · intro k
    rw [List.mem_filter]
    simp [Bool.not_eq_true']

/-- Witness for C9: a payload missing only orderCode yields a message
listing exactly orderCode. -/
theorem claim_c9_witness :
    (PayOS.mk "cid" "api" "k").createPaymentLink
      [("amount", .num 1), ("cancelUrl", .str "c"), ("description", .str "d"), ("returnUrl", .str "r")]
      (.fail ⟨none, none⟩) =
      .error (.jsError "The following fields are required: orderCode") :=
  (claim_c9_missing_fields (PayOS.mk "cid" "api" "k")
    [("amount", .num 1), ("cancelUrl", .str "c"), ("description", .str "d"), ("returnUrl", .str "r")]
    (.fail ⟨none, none⟩) (by decide)).1

/-- Claim C1: across createPaymentLink, getPaymentLinkInformation and
cancelPaymentLink, a parsed response releases its data only when the code
is "00" and the recomputed signature strictly equals the supplied
signature field; whenever the recomputed signature differs while the code
is "00", an error is raised instead, so HTTP success alone never yields
data. -/
theorem claim_c1_integrity_gate (c : PayOS) (p : Obj) (oid : OrderId) (reason : Option String)
    (env env2 : Envelope) (d : Obj)
    (hp : (requiredFields.any fun k => !(getField p k).truthy) = false)
    (hg : invalidOrderIdGet oid = false) (hc : invalidOrderIdCancel oid = false)
    (h1 : env.code = "00")
    (h2 : sigMatches (createSignatureFromObject env.data c.checksumKey) env.signature = false) :
    (c.createPaymentLink p (.ok env) = .error (.jsError ERROR_MESSAGE.DATA_NOT_INTEGRITY) ∧
     c.getPaymentLinkInformation oid (.ok env) = .error (.jsError ERROR_MESSAGE.DATA_NOT_INTEGRITY) ∧
     c.cancelPaymentLink oid reason (.ok env) = .error (.jsError ERROR_MESSAGE.DATA_NOT_INTEGRITY)) ∧
    ((c.createPaymentLink p (.ok env2) = .ok d ↔
        env2.code = "00" ∧
          sigMatches (createSignatureFromObject env2.data c.checksumKey) env2.signature = true ∧
          env2.data = some d) ∧
     (c.getPaymentLinkInformation oid (.ok env2) = .ok d ↔
        env2.code = "00" ∧
          sigMatches (createSignatureFromObject env2.data c.checksumKey) env2.signature = true ∧
          env2.data = some d) ∧
     (c.cancelPaymentLink oid reason (.ok env2) = .ok d ↔
        env2.code = "00" ∧
          sigMatches (createSignatureFromObject env2.data c.checksumKey) env2.signature = true ∧
          env2.data = some d)) := by
  have hcp : ∀ o, c.createPaymentLink p o = handleOutcome c.checksumKey o := by
    intro o
    simp [PayOS.createPaymentLink, hp]
  have hgp : ∀ o, c.getPaymentLinkInformation oid o = handleOutcome c.checksumKey o := by
    intro o
    simp [PayOS.getPaymentLinkInformation, hg]
  have hclp : ∀ o, c.cancelPaymentLink oid reason o = handleOutcome c.checksumKey o := by
    intro o
    simp [PayOS.cancelPaymentLink, hc]
  refine ⟨⟨?_, ?_, ?_⟩, ?_, ?_, ?_⟩
  · rw [hcp]
    exact handleOutcome_mismatch _ _ h1 h2
  · rw [hgp]
    exact handleOutcome_mismatch _ _ h1 h2
  · rw [hclp]
    exact handleOutcome_mismatch _ _ h1 h2
  · rw [hcp]
    exact handleOutcome_ok_iff _ _ _
  · rw [hgp]
    exact handleOutcome_ok_iff _ _ _
  · rw [hclp]
    exact handleOutcome_ok_iff _ _ _

/-- Witness for C1: a concrete code-"00" response whose recomputed
signature (null, as its data is absent) differs from the supplied one is
rejected by all three operations with the integrity error. -/
theorem claim_c1_witness :
    (PayOS.mk "cid" "api" "k").createPaymentLink
        [("amount", .num 1), ("cancelUrl", .str "c"), ("description", .str "d"),
         ("orderCode", .num 2), ("returnUrl", .str "r")]
        (.ok ⟨"00", "ok", none, some "x"⟩) =
      .error (.jsError ERROR_MESSAGE.DATA_NOT_INTEGRITY) ∧
    (PayOS.mk "cid" "api" "k").getPaymentLinkInformation (.str "42")
        (.ok ⟨"00", "ok", none, some "x"⟩) =
      .error (.jsError ERROR_MESSAGE.DATA_NOT_INTEGRITY) ∧
    (PayOS.mk "cid" "api" "k").cancelPaymentLink (.str "42") none
        (.ok ⟨"00", "ok", none, some "x"⟩) =
      .error (.jsError ERROR_MESSAGE.DATA_NOT_INTEGRITY) :=
  (claim_c1_integrity_gate (PayOS.mk "cid" "api" "k")
    [("amount", .num 1), ("cancelUrl", .str "c"), ("description", .str "d"),
      ("orderCode", .num 2), ("returnUrl", .str "r")]
    (.str "42") none ⟨"00", "ok", none, some "x"⟩ ⟨"00", "ok", none, some "x"⟩ []
    (by decide) (by decide) (by decide) rfl (by decide)).1

/-- Counterexample for C2 as stated: on a response with code "01" and desc
"failed", createPaymentLink raises a plain Error carrying only "failed"
(the PayOSError built inside the try block is caught by the operation's
own catch block and rewrapped), not a PayOSError carrying the code. -/
theorem claim_c2_counterexample :
    (PayOS.mk "cid" "api" "k").createPaymentLink
        [("amount", .num 1), ("cancelUrl", .str "c"), ("description", .str "d"),
         ("orderCode", .num 2), ("returnUrl", .str "r")]
        (.ok ⟨"01", "failed", some [("x", .str "1")], some "sig"⟩) =
      .error (.jsError "failed") ∧
    (Except.error (Thrown.jsError "failed") : Except Thrown Obj) ≠
      .error (.payosError "01" "failed") :=
  ⟨rfl, by simp⟩

/-- Claim C2 amended: on a response whose code differs from "00", each of
the three payment operations raises a plain Error whose message is the
response's desc when the desc is non-empty, and the literal text "Error"
when the desc is the empty string (the falsy message makes the catch
block build the Error from the error object itself); the internally
constructed PayOSError is rewrapped by the catch block, so the response
code is never carried to the caller. -/
theorem claim_c2_badCode (c : PayOS) (p : Obj) (oid : OrderId) (reason : Option String)
    (env : Envelope)
    (hp : (requiredFields.any fun k => !(getField p k).truthy) = false)
    (hg : invalidOrderIdGet oid = false) (hc : invalidOrderIdCancel oid = false)
    (h1 : env.code ≠ "00") :
    c.createPaymentLink p (.ok env) =
      .error (.jsError (if env.desc = "" then "Error" else env.desc)) ∧
    c.getPaymentLinkInformation oid (.ok env) =
      .error (.jsError (if env.desc = "" then "Error" else env.desc)) ∧
    c.cancelPaymentLink oid reason (.ok env) =
      .error (.jsError (if env.desc = "" then "Error" else env.desc)) := by
  have hcp : c.createPaymentLink p (.ok env) = handleOutcome c.checksumKey (.ok env) := by
    simp [PayOS.createPaymentLink, hp]
  have hgp : c.getPaymentLinkInformation oid (.ok env) = handleOutcome c.checksumKey (.ok env) := by
    simp [PayOS.getPaymentLinkInformation, hg]
  have hclp : c.cancelPaymentLink oid reason (.ok env) = handleOutcome c.checksumKey (.ok env) := by
    simp [PayOS.cancelPaymentLink, hc]
  rw [hcp, hgp, hclp]
  exact ⟨handleOutcome_badCode _ _ h1, handleOutcome_badCode _ _ h1,
    handleOutcome_badCode _ _ h1⟩

/-- Witness for the amended C2 at concrete inputs: the operations surface
the desc of a code-"01" response as a plain Error message, and a
code-"01" response with an empty desc surfaces the message "Error". -/
theorem claim_c2_witness :
    (PayOS.mk "cid" "api" "k").getPaymentLinkInformation (.str "42")
        (.ok ⟨"01", "failed", some [("x", .str "1")], some "sig"⟩) =
      .error (.jsError "failed") ∧
    (PayOS.mk "cid" "api" "k").cancelPaymentLink (.str "42") none
        (.ok ⟨"01", "failed", some [("x", .str "1")], some "sig"⟩) =
      .error (.jsError "failed") ∧
    (PayOS.mk "cid" "api" "k").getPaymentLinkInformation (.str "42")
        (.ok ⟨"01", "", some [("x", .str "1")], some "sig"⟩) =
      .error (.jsError "Error") :=
  ⟨(claim_c2_badCode (PayOS.mk "cid" "api" "k")
      [("amount", .num 1), ("cancelUrl", .str "c"), ("description", .str "d"),
        ("orderCode", .num 2), ("returnUrl", .str "r")]
      (.str "42") none ⟨"01", "failed", some [("x", .str "1")], some "sig"⟩
      (by decide) (by decide) (by decide) (by decide)).2.1,
    (claim_c2_badCode (PayOS.mk "cid" "api" "k")
      [("amount", .num 1), ("cancelUrl", .str "c"), ("description", .str "d"),
        ("orderCode", .num 2), ("returnUrl", .str "r")]
      (.str "42") none ⟨"01", "failed", some [("x", .str "1")], some "sig"⟩
      (by decide) (by decide) (by decide) (by decide)).2.2,
    (claim_c2_badCode (PayOS.mk "cid" "api" "k")
      [("amount", .num 1), ("cancelUrl", .str "c"), ("description", .str "d"),
        ("orderCode", .num 2), ("returnUrl", .str "r")]
      (.str "42") none ⟨"01", "", some [("x", .str "1")], some "sig"⟩
      (by decide) (by decide) (by decide) (by decide)).2.1⟩

/-- Claim C4: for a payload with the five required fields truthy and a
non-empty key, the HMAC input of createSignatureOfPaymentRequest is
exactly the five fields rendered as field=value joined by ampersands in
the fixed order amount, cancelUrl, description, orderCode, returnUrl;
consequently the signature depends only on those five field values, not
on the key order of the payload or on extra keys. -/
theorem claim_c4_payment_request_canonical (p q : Obj) (key : String)
    (ha : (getField p "amount").truthy = true)
    (hb : (getField p "cancelUrl").truthy = true)
    (hd : (getField p "description").truthy = true)
    (ho : (getField p "orderCode").truthy = true)
    (hr : (getField p "returnUrl").truthy = true)
    (hkey : key ≠ "") :
    createSignatureOfPaymentRequest (some p) key =
      some (Crypto.hmacSha256Hex key
        ("amount=" ++ (getField p "amount").toStr ++
          "&cancelUrl=" ++ (getField p "cancelUrl").toStr ++
          "&description=" ++ (getField p "description").toStr ++
          "&orderCode=" ++ (getField p "orderCode").toStr ++
          "&returnUrl=" ++ (getField p "returnUrl").toStr)) ∧
    ((∀ k ∈ requiredFields, getField p k = getField q k) →
      createSignatureOfPaymentRequest (some p) key =
        createSignatureOfPaymentRequest (some q) key) := by
  have hlen : ¬ key.length = 0 := fun h => hkey ((string_length_eq_zero_iff key).mp h)
  constructor
  · rw [createSignatureOfPaymentRequest, if_neg hlen]
  · intro hk
    rw [createSignatureOfPaymentRequest, createSignatureOfPaymentRequest,
      hk "amount" (by decide), hk "cancelUrl" (by decide), hk "description" (by decide),
      hk "orderCode" (by decide), hk "returnUrl" (by decide)]

/-- Witness for C4: a payload listing the five fields in scrambled order
with an extra key signs identically to the same fields in canonical
order. -/
theorem claim_c4_witness :
    createSignatureOfPaymentRequest
      (some [("returnUrl", .str "r"), ("extra", .str "zzz"), ("orderCode", .num 7),
             ("amount", .num 5000), ("description", .str "t"), ("cancelUrl", .str "c")]) "secret" =
    createSignatureOfPaymentRequest
      (some [("amount", .num 5000), ("cancelUrl", .str "c"), ("description", .str "t"),
             ("orderCode", .num 7), ("returnUrl", .str "r")]) "secret" :=
  (claim_c4_payment_request_canonical
    [("returnUrl", .str "r"), ("extra", .str "zzz"), ("orderCode", .num 7),
      ("amount", .num 5000), ("description", .str "t"), ("cancelUrl", .str "c")]
    [("amount", .num 5000), ("cancelUrl", .str "c"), ("description", .str "t"),
      ("orderCode", .num 7), ("returnUrl", .str "r")] "secret"
    (by decide) (by decide) (by decide) (by decide) (by decide) (by decide)).2
    (by decide)

theorem invalidOrderIdGet_num_iff (q : Rat) :
    invalidOrderIdGet (.num q) = true ↔ (q = 0 ∨ q.den ≠ 1 ∨ q ≤ 0) := by
  simp [invalidOrderIdGet]

theorem invalidOrderIdGet_str_iff (s : String) :
    invalidOrderIdGet (.str s) = true ↔ s = "" := by
  simp [invalidOrderIdGet, string_length_eq_zero_iff]

theorem invalidOrderId_same (oid : OrderId) : invalidOrderIdGet oid = invalidOrderIdCancel oid := by
  cases oid <;> rfl

/-- Claim C8: getPaymentLinkInformation and cancelPaymentLink validate the
orderId identically and before any transport activity: a number that is
zero, negative or not an integer, and the empty string, raise the error
"Invalid Parameter."; a positive integer or a non-empty string passes and
the operation proceeds to the shared transport handling. -/
theorem claim_c8_orderId_validation (c : PayOS) (q : Rat) (s : String) (reason : Option String)
    (outcome : FetchOutcome) :
    (∀ oid : OrderId, invalidOrderIdGet oid = invalidOrderIdCancel oid) ∧
    ((q ≤ 0 ∨ q.den ≠ 1) →
      c.getPaymentLinkInformation (.num q) outcome = .error (.jsError "Invalid Parameter.") ∧
      c.cancelPaymentLink (.num q) reason outcome = .error (.jsError "Invalid Parameter.")) ∧
    (c.getPaymentLinkInformation (.str "") outcome = .error (.jsError "Invalid Parameter.") ∧
     c.cancelPaymentLink (.str "") reason outcome = .error (.jsError "Invalid Parameter.")) ∧
    ((0 < q ∧ q.den = 1) →
      c.getPaymentLinkInformation (.num q) outcome = handleOutcome c.checksumKey outcome ∧
      c.cancelPaymentLink (.num q) reason outcome = handleOutcome c.checksumKey outcome) ∧
    (s ≠ "" →
      c.getPaymentLinkInformation (.str s) outcome = handleOutcome c.checksumKey outcome ∧
      c.cancelPaymentLink (.str s) reason outcome = handleOutcome c.checksumKey outcome) := by
  refine ⟨invalidOrderId_same, ?_, ?_, ?_, ?_⟩
  · intro hq
    have hv : invalidOrderIdGet (.num q) = true := (invalidOrderIdGet_num_iff q).mpr (by tauto)
    have hv2 : invalidOrderIdCancel (.num q) = true := invalidOrderId_same (.num q) ▸ hv
    constructor
    · simp [PayOS.getPaymentLinkInformation, hv, ERROR_MESSAGE.INVALID_PARAMETER]
    · simp [PayOS.cancelPaymentLink, hv2, ERROR_MESSAGE.INVALID_PARAMETER]
  · have hv : invalidOrderIdGet (.str "") = true := (invalidOrderIdGet_str_iff "").mpr rfl
    have hv2 : invalidOrderIdCancel (.str "") = true := invalidOrderId_same (.str "") ▸ hv
    constructor
    · simp [PayOS.getPaymentLinkInformation, hv, ERROR_MESSAGE.INVALID_PARAMETER]
    · simp [PayOS.cancelPaymentLink, hv2, ERROR_MESSAGE.INVALID_PARAMETER]
  · intro hq
    have hnv : ¬ (invalidOrderIdGet (.num q) = true) := by
      rw [invalidOrderIdGet_num_iff]
      push_neg
      exact ⟨ne_of_gt hq.1, hq.2, hq.1⟩
    have hv : invalidOrderIdGet (.num q) = false := Bool.eq_false_iff.mpr hnv
    have hv2 : invalidOrderIdCancel (.num q) = false := invalidOrderId_same (.num q) ▸ hv
    constructor
    · simp [PayOS.getPaymentLinkInformation, hv]
    · simp [PayOS.cancelPaymentLink, hv2]
  · intro hs
    have hnv : ¬ (invalidOrderIdGet (.str s) = true) := by
      rw [invalidOrderIdGet_str_iff]
      exact hs
    have hv : invalidOrderIdGet (.str s) = false := Bool.eq_false_iff.mpr hnv
    have hv2 : invalidOrderIdCancel (.str s) = false := invalidOrderId_same (.str s) ▸ hv
    constructor
    · simp [PayOS.getPaymentLinkInformation, hv]
    · simp [PayOS.cancelPaymentLink, hv2]

/-- Witness for C8: orderId 0 raises Invalid Parameter while orderId 42
proceeds to the transport handling, in both operations. -/
theorem claim_c8_witness :
    ((PayOS.mk "cid" "api" "k").getPaymentLinkInformation (.num 0) (.fail ⟨none, none⟩) =
        .error (.jsError "Invalid Parameter.") ∧
      (PayOS.mk "cid" "api" "k").cancelPaymentLink (.num 0) none (.fail ⟨none, none⟩) =
        .error (.jsError "Invalid Parameter.")) ∧
    ((PayOS.mk "cid" "api" "k").getPaymentLinkInformation (.num 42) (.fail ⟨none, none⟩) =
        handleOutcome "k" (.fail ⟨none, none⟩) ∧
      (PayOS.mk "cid" "api" "k").cancelPaymentLink (.num 42) none (.fail ⟨none, none⟩) =
        handleOutcome "k" (.fail ⟨none, none⟩)) :=
  ⟨(claim_c8_orderId_validation (PayOS.mk "cid" "api" "k") 0 "x" none
      (.fail ⟨none, none⟩)).2.1 (Or.inl le_rfl),
    (claim_c8_orderId_validation (PayOS.mk "cid" "api" "k") 42 "x" none
      (.fail ⟨none, none⟩)).2.2.2.1 ⟨by norm_num, by norm_num⟩⟩

theorem jsKeyOrder_filter_idx (ks : List String) :
    (jsKeyOrder ks).filter (fun k => (jsArrayIndex k).isSome) =
      List.insertionSort idxNumLe (ks.filter (fun k => (jsArrayIndex k).isSome)) := by
  unfold jsKeyOrder
  rw [List.filter_append]
  have h1 : (List.insertionSort idxNumLe
        (ks.filter (fun k => (jsArrayIndex k).isSome))).filter
          (fun k => (jsArrayIndex k).isSome) =
      List.insertionSort idxNumLe (ks.filter (fun k => (jsArrayIndex k).isSome)) :=
    List.filter_eq_self.mpr (fun k hk =>
      (List.mem_filter.mp ((List.perm_insertionSort idxNumLe _).mem_iff.mp hk)).2)
  have h2 : (ks.filter (fun k => !(jsArrayIndex k).isSome)).filter
        (fun k => (jsArrayIndex k).isSome) = [] :=
    List.filter_eq_nil_iff.mpr (fun k hk => by simpa using (List.mem_filter.mp hk).2)
  rw [h1, h2, List.append_nil]

theorem jsKeyOrder_filter_nonidx (ks : List String) :
    (jsKeyOrder ks).filter (fun k => !(jsArrayIndex k).isSome) =
      ks.filter (fun k => !(jsArrayIndex k).isSome) := by
  unfold jsKeyOrder
  rw [List.filter_append]
  have h1 : (List.insertionSort idxNumLe
        (ks.filter (fun k => (jsArrayIndex k).isSome))).filter
          (fun k => !(jsArrayIndex k).isSome) = [] :=
    List.filter_eq_nil_iff.mpr (fun k hk => by
      have hs := (List.mem_filter.mp ((List.perm_insertionSort idxNumLe _).mem_iff.mp hk)).2
      intro hcon
      rw [hs] at hcon
      exact absurd hcon (by decide))
  have h2 : (ks.filter (fun k => !(jsArrayIndex k).isSome)).filter
        (fun k => !(jsArrayIndex k).isSome) =
      ks.filter (fun k => !(jsArrayIndex k).isSome) :=
    List.filter_eq_self.mpr (fun k hk => (List.mem_filter.mp hk).2)
  rw [h1, h2, List.nil_append]

theorem jsKeyOrder_all_nonidx (ks : List String)
    (h : ∀ k ∈ ks, (!(jsArrayIndex k).isSome) = true) : jsKeyOrder ks = ks := by
  unfold jsKeyOrder
  have h1 : ks.filter (fun k => (jsArrayIndex k).isSome) = [] :=
    List.filter_eq_nil_iff.mpr (fun k hk => by simpa using h k hk)
  have h2 : ks.filter (fun k => !(jsArrayIndex k).isSome) = ks :=
    List.filter_eq_self.mpr h
  rw [h1, h2]
  rfl

/-- Counterexample for C5 as stated: the mapping with keys b, "10" and
"2" rebuilds into an object whose ECMAScript enumeration lists the
array-index keys "2" and "10" numerically first, so the canonical
encoding is "2=3&10=2&b=1" — the key "2" precedes "10" although "10"
precedes "2" in the ordinal lexicographic order. -/
theorem claim_c5_counterexample :
    objectToQueryString (sortObjectByKey
      [("b", JSVal.num 1), ("10", JSVal.num 2), ("2", JSVal.num 3)]) = "2=3&10=2&b=1" ∧
    objectKeys (sortObjectByKey
      [("b", JSVal.num 1), ("10", JSVal.num 2), ("2", JSVal.num 3)]) = ["2", "10", "b"] ∧
    ¬ jsLe "2" "10" := by
  refine ⟨by decide, by decide, by decide⟩

/-- Claim C5 amended: the canonical encoding enumerates array-index keys
first in ascending numeric order, then the remaining keys in ascending
JS-ordinal lexicographic order; the enumerated entries are a permutation
of the mapping (values unchanged), each pair rendered as key=value and
joined by ampersands; for a mapping with no array-index keys the whole
enumeration is in ascending lexicographic order; and two mappings with
the same pairs in any insertion order encode identically. -/
theorem claim_c5_canonical_encoder (m m2 : Obj)
    (hnd : (m.map Prod.fst).Nodup) (hperm : m.Perm m2) :
    ((objectKeys (sortObjectByKey m)).filter
        (fun k => (jsArrayIndex k).isSome)).Sorted idxNumLe ∧
    ((objectKeys (sortObjectByKey m)).filter
        (fun k => !(jsArrayIndex k).isSome)).Sorted jsLe ∧
    ((m.map Prod.fst).all (fun k => !(jsArrayIndex k).isSome) = true →
      (objectKeys (sortObjectByKey m)).Sorted jsLe) ∧
    (jsEntries (sortObjectByKey m)).Perm m ∧
    objectToQueryString (sortObjectByKey m) =
      String.intercalate "&" ((jsEntries (sortObjectByKey m)).map
        (fun pr => pr.1 ++ "=" ++ pr.2.toStr)) ∧
    objectToQueryString (sortObjectByKey m) = objectToQueryString (sortObjectByKey m2) := by
  have hOK : objectKeys (sortObjectByKey m) =
      jsKeyOrder (List.insertionSort jsLe (objectKeys m)) := by
    rw [show objectKeys (sortObjectByKey m) =
      jsKeyOrder ((sortObjectByKey m).map Prod.fst) from rfl, sortObjectByKey_keys]
  have hskSorted : (List.insertionSort jsLe (objectKeys m)).Sorted jsLe :=
    List.sorted_insertionSort jsLe (objectKeys m)
  have hskMem : ∀ k, k ∈ List.insertionSort jsLe (objectKeys m) → k ∈ m.map Prod.fst := by
    intro k hk
    exact (objectKeys_perm m).mem_iff.mp
      ((List.perm_insertionSort jsLe (objectKeys m)).mem_iff.mp hk)
  refine ⟨?_, ?_, ?_, ?_, objectToQueryString_entries _, ?_⟩
  · rw [hOK, jsKeyOrder_filter_idx]
    exact List.sorted_insertionSort idxNumLe _
  · rw [hOK, jsKeyOrder_filter_nonidx]
    exact hskSorted.sublist (List.filter_sublist _)
  · intro hall
    have hnone : ∀ k ∈ List.insertionSort jsLe (objectKeys m),
        (!(jsArrayIndex k).isSome) = true := by
      intro k hk
      exact List.all_eq_true.mp hall k (hskMem k hk)
    rw [hOK, jsKeyOrder_all_nonidx _ hnone]
    exact hskSorted
  · have hndo : ((sortObjectByKey m).map Prod.fst).Nodup := by
      rw [sortObjectByKey_keys]
      exact ((List.perm_insertionSort jsLe (objectKeys m)).trans
        (objectKeys_perm m)).nodup_iff.mpr hnd
    have h1 : List.Perm (jsEntries (sortObjectByKey m))
        (((sortObjectByKey m).map Prod.fst).map
          (fun k => (k, getField (sortObjectByKey m) k))) :=
      (objectKeys_perm (sortObjectByKey m)).map _
    rw [map_keys_getField (sortObjectByKey m) hndo] at h1
    exact h1.trans (sortObjectByKey_perm m hnd)
  · rw [sortObjectByKey_eq_of_perm m m2 hnd hperm]

/-- Witness for C5: two insertion orders of the same two pairs encode to
the same canonical string, and with no array-index keys the enumeration
is in ascending lexicographic order. -/
theorem claim_c5_witness :
    objectToQueryString (sortObjectByKey [("b", JSVal.str "2"), ("a", JSVal.str "1")]) =
      objectToQueryString (sortObjectByKey [("a", JSVal.str "1"), ("b", JSVal.str "2")]) ∧
    (objectKeys (sortObjectByKey [("b", JSVal.str "2"), ("a", JSVal.str "1")])).Sorted jsLe :=
  ⟨(claim_c5_canonical_encoder [("b", JSVal.str "2"), ("a", JSVal.str "1")]
      [("a", JSVal.str "1"), ("b", JSVal.str "2")] (by decide)
      (List.Perm.swap ("a", JSVal.str "1") ("b", JSVal.str "2") [])).2.2.2.2.2,
    (claim_c5_canonical_encoder [("b", JSVal.str "2"), ("a", JSVal.str "1")]
      [("a", JSVal.str "1"), ("b", JSVal.str "2")] (by decide)
      (List.Perm.swap ("a", JSVal.str "1") ("b", JSVal.str "2") [])).2.2.1 (by decide)⟩

set_option maxRecDepth 100000 in
theorem natRepr_starts5 : ∀ s : Nat, s < 600 → (100 ≤ s →
    (strStartsWith (toString s) "5" = decide (500 ≤ s))) := by decide

/-- Claim C3: when the transport interaction inside confirmWebhook fails
with an HTTP status, the raised error is a GatewayError determined by
that status: 400 raises the Webhook URL invalid error, 401 the
Unauthorized error, any 5xx status the Internal Server Error, and any
other status a plain generic Error; a failing transport interaction
never lets confirmWebhook return successfully. -/
theorem claim_c3_confirmWebhook (c : PayOS) (url : String) (e : ErrData) (s : Nat)
    (hurl : url ≠ "") (hs : e.status = some s) (hlo : 100 ≤ s) (hhi : s ≤ 599) :
    (s = 400 → c.confirmWebhook url (.fail e) =
        .error (.payosError ERROR_CODE.INTERNAL_SERVER_ERROR ERROR_MESSAGE.WEBHOOK_URL_INVALID)) ∧
    (s = 401 → c.confirmWebhook url (.fail e) =
        .error (.payosError ERROR_CODE.UNAUTHORIZED ERROR_MESSAGE.UNAUTHORIZED)) ∧
    (500 ≤ s → c.confirmWebhook url (.fail e) =
        .error (.payosError ERROR_CODE.INTERNAL_SERVER_ERROR ERROR_MESSAGE.INTERNAL_SERVER_ERROR)) ∧
    (s ≠ 400 → s ≠ 401 → s < 500 →
        ∃ m, c.confirmWebhook url (.fail e) = .error (.jsError m)) ∧
    (∀ u, c.confirmWebhook url (.fail e) ≠ .ok u) := by
  have hv : (decide (url = "") || decide (url.length = 0)) = false := by
    have h2 : ¬ url.length = 0 := fun h => hurl ((string_length_eq_zero_iff url).mp h)
    simp [hurl, h2]
  have hbody : c.confirmWebhook url (.fail e) =
      (if (some s : Option Nat) == some 400 then
        .error (.payosError ERROR_CODE.INTERNAL_SERVER_ERROR ERROR_MESSAGE.WEBHOOK_URL_INVALID)
      else if (some s : Option Nat) == some 401 then
        .error (.payosError ERROR_CODE.UNAUTHORIZED ERROR_MESSAGE.UNAUTHORIZED)
      else if strStartsWith (toString s) "5" then
        .error (.payosError ERROR_CODE.INTERNAL_SERVER_ERROR ERROR_MESSAGE.INTERNAL_SERVER_ERROR)
      else .error (rewrapFail e)) := by
    simp [PayOS.confirmWebhook, hv, hs]
  refine ⟨?_, ?_, ?_, ?_, ?_⟩
  · intro h
    subst h
    rw [hbody]
    simp
  · intro h
    subst h
    rw [hbody]
    simp
  · intro h5
    have hne1 : ((some s : Option Nat) == some 400) = false := by
      apply beq_eq_false_iff_ne.mpr
      intro hx
      injection hx with hx
      omega
    have hne2 : ((some s : Option Nat) == some 401) = false := by
      apply beq_eq_false_iff_ne.mpr
      intro hx
      injection hx with hx
      omega
    have hst : strStartsWith (toString s) "5" = true := by
      rw [natRepr_starts5 s (by omega) hlo]
      exact decide_eq_true h5
    rw [hbody, hne1, hne2, hst]
    simp
  · intro h400 h401 h500
    have hne1 : ((some s : Option Nat) == some 400) = false := by
      apply beq_eq_false_iff_ne.mpr
      intro hx
      injection hx with hx
      exact h400 hx
    have hne2 : ((some s : Option Nat) == some 401) = false := by
      apply beq_eq_false_iff_ne.mpr
      intro hx
      injection hx with hx
      exact h401 hx
    have hst : strStartsWith (toString s) "5" = false := by
      rw [natRepr_starts5 s (by omega) hlo]
      exact decide_eq_false (not_le.mpr h500)
    rw [hbody, hne1, hne2, hst]
    simp only [Bool.false_eq_true, if_false]
    exact ⟨_, rfl⟩
  · intro u
    rw [hbody]
    split_ifs <;> simp

/-- Witness for C3: a transport failure with status 400 raises the
Webhook URL invalid PayOSError, and one with status 503 raises the
Internal Server Error PayOSError. -/
theorem claim_c3_witness :
    (PayOS.mk "cid" "api" "k").confirmWebhook "https://h.example/hook" (.fail ⟨some 400, none⟩) =
      .error (.payosError ERROR_CODE.INTERNAL_SERVER_ERROR ERROR_MESSAGE.WEBHOOK_URL_INVALID) ∧
    (PayOS.mk "cid" "api" "k").confirmWebhook "https://h.example/hook" (.fail ⟨some 503, none⟩) =
      .error (.payosError ERROR_CODE.INTERNAL_SERVER_ERROR ERROR_MESSAGE.INTERNAL_SERVER_ERROR) :=
  ⟨(claim_c3_confirmWebhook (PayOS.mk "cid" "api" "k") "https://h.example/hook"
      ⟨some 400, none⟩ 400 (by decide) rfl (by decide) (by decide)).1 rfl,
    (claim_c3_confirmWebhook (PayOS.mk "cid" "api" "k") "https://h.example/hook"
      ⟨some 503, none⟩ 503 (by decide) rfl (by decide) (by decide)).2.2.1 (by decide)⟩

theorem sigMatches_none_left (y : Option String) : sigMatches none y = false := by
  cases y <;> rfl

theorem sigMatches_none_right (x : Option String) : sigMatches x none = false := by
  cases x <;> rfl

theorem createSignatureFromObject_empty_key (x : Option Obj) :
    createSignatureFromObject x "" = none := by
  cases x <;> simp [createSignatureFromObject]

theorem required_msg_ne (x : String) :
    ("The following fields are required: " ++ x) ≠ ERROR_MESSAGE.NO_SIGNATURE ∧
    ("The following fields are required: " ++ x) ≠ ERROR_MESSAGE.INVALID_SIGNATURE := by
  constructor
  · intro h
    have hd := congrArg String.data h
    rw [String.data_append] at hd
    simp [ERROR_MESSAGE.NO_SIGNATURE] at hd
  · intro h
    have hd := congrArg String.data h
    rw [String.data_append] at hd
    simp [ERROR_MESSAGE.INVALID_SIGNATURE] at hd

theorem handleOutcome_error_msg (chk : String) (env : Envelope) (t : Thrown)
    (ht : handleOutcome chk (.ok env) = .error t) :
    t.messageOf = ERROR_MESSAGE.DATA_NOT_INTEGRITY ∨ t.messageOf = env.desc ∨
      t.messageOf = "Error" := by
  simp only [handleOutcome, processEnvelope] at ht
  by_cases h1 : env.code = "00"
  · rw [if_pos h1] at ht
    by_cases h2 : sigMatches (createSignatureFromObject env.data chk) env.signature = true
    · rw [if_pos h2] at ht
      rcases hd : env.data with _ | dd
      · rw [hd] at ht
        have ht2 : rewrap (Thrown.payosError env.code env.desc) = t := by
          injection ht
        rw [← ht2]
        simp only [rewrap, Thrown.messageOf]
        by_cases hm : env.desc = ""
        · rw [if_pos hm]
          right; right; rfl
        · rw [if_neg hm]
          right; left; rfl
      · rw [hd] at ht
        exact absurd ht (by simp)
    · rw [if_neg h2] at ht
      have ht2 : rewrap (Thrown.jsError ERROR_MESSAGE.DATA_NOT_INTEGRITY) = t := by
        injection ht
      rw [← ht2]
      simp only [rewrap, Thrown.messageOf]
      rw [if_neg (by decide)]
      left; rfl
  · rw [if_neg h1] at ht
    have ht2 : rewrap (Thrown.payosError env.code env.desc) = t := by
      injection ht
    rw [← ht2]
    simp only [rewrap, Thrown.messageOf]
    by_cases hm : env.desc = ""
    · rw [if_pos hm]
      right; right; rfl
    · rw [if_neg hm]
      right; left; rfl

/-- Cleanliness of a transport outcome: the gateway desc and the
transport error message differ from the two unused message constants, so
no echoed input can masquerade as them. -/
def cleanOutcome (o : FetchOutcome) : Prop :=
  match o with
  | .ok env => env.desc ≠ ERROR_MESSAGE.NO_SIGNATURE ∧ env.desc ≠ ERROR_MESSAGE.INVALID_SIGNATURE
  | .fail e => ∀ m, e.message = some m →
      m ≠ ERROR_MESSAGE.NO_SIGNATURE ∧ m ≠ ERROR_MESSAGE.INVALID_SIGNATURE

/-- A result never raises the two unused message constants. -/
def neverUnusedMsg {α : Type} (r : Except Thrown α) : Prop :=
  ∀ t, r = .error t → t.messageOf ≠ ERROR_MESSAGE.NO_SIGNATURE ∧
    t.messageOf ≠ ERROR_MESSAGE.INVALID_SIGNATURE

theorem rewrapFail_neverUnused (e : ErrData)
    (hc : ∀ m, e.message = some m →
      m ≠ ERROR_MESSAGE.NO_SIGNATURE ∧ m ≠ ERROR_MESSAGE.INVALID_SIGNATURE) :
    (rewrapFail e).messageOf ≠ ERROR_MESSAGE.NO_SIGNATURE ∧
    (rewrapFail e).messageOf ≠ ERROR_MESSAGE.INVALID_SIGNATURE := by
  rcases hm : e.message with _ | m
  · have hr : rewrapFail e = .jsError "Error" := by simp [rewrapFail, hm]
    rw [hr]
    exact ⟨by decide, by decide⟩
  · by_cases hm0 : m = ""
    · have hr : rewrapFail e = .jsError "Error" := by simp [rewrapFail, hm, hm0]
      rw [hr]
      exact ⟨by decide, by decide⟩
    · have hr : rewrapFail e = .jsError m := by simp [rewrapFail, hm, hm0]
      rw [hr]
      exact hc m hm

theorem handleOutcome_neverUnused (chk : String) (outcome : FetchOutcome)
    (hc : cleanOutcome outcome) : neverUnusedMsg (handleOutcome chk outcome) := by
  intro t ht
  rcases outcome with env | e
  · rcases handleOutcome_error_msg chk env t ht with h | h | h
    · rw [h]
      exact ⟨by decide, by decide⟩
    · rw [h]
      exact hc
    · rw [h]
      exact ⟨by decide, by decide⟩
  · have ht2 : rewrapFail e = t := by
      simp only [handleOutcome] at ht
      injection ht
    rw [← ht2]
    exact rewrapFail_neverUnused e hc

/-- Claim C10: a webhook body with data present is rejected with the
integrity error not only on a corrupted signature but also when the
signature field is entirely absent, and when the checksum key is empty
(the recomputed signature is then null, which strictly equals no string);
and no operation ever raises the defined NO_SIGNATURE or
INVALID_SIGNATURE messages (given that no input string echoes them). -/
theorem claim_c10_rejections_and_unused (c : PayOS) (body : WebhookBody) (d : Obj) (p : Obj)
    (oid : OrderId) (reason : Option String) (url : String) (outcome : FetchOutcome) :
    (body.data = some d → body.signature = none →
      c.verifyWebhookData body = .error (.jsError ERROR_MESSAGE.DATA_NOT_INTEGRITY)) ∧
    (c.checksumKey = "" →
      createSignatureFromObject body.data c.checksumKey = none ∧
      (body.data = some d →
        c.verifyWebhookData body = .error (.jsError ERROR_MESSAGE.DATA_NOT_INTEGRITY))) ∧
    neverUnusedMsg (c.verifyWebhookData body) ∧
    (cleanOutcome outcome →
      neverUnusedMsg (c.createPaymentLink p outcome) ∧
      neverUnusedMsg (c.getPaymentLinkInformation oid outcome) ∧
      neverUnusedMsg (c.cancelPaymentLink oid reason outcome) ∧
      neverUnusedMsg (c.confirmWebhook url outcome)) := by
  refine ⟨?_, ?_, ?_, ?_⟩
  · intro hd hsig
    simp [PayOS.verifyWebhookData, hd, hsig, sigMatches_none_right,
      ERROR_MESSAGE.DATA_NOT_INTEGRITY]
  · intro hk
    rw [hk]
    refine ⟨createSignatureFromObject_empty_key body.data, fun hd => ?_⟩
    simp [PayOS.verifyWebhookData, hd, hk, createSignatureFromObject_empty_key,
      sigMatches_none_left, ERROR_MESSAGE.DATA_NOT_INTEGRITY]
  · intro t ht
    obtain ⟨bd, bs⟩ := body
    simp only [PayOS.verifyWebhookData] at ht
    split at ht
    · have ht2 : Thrown.jsError ERROR_MESSAGE.NO_DATA = t := by
        injection ht
      rw [← ht2]
      exact ⟨by decide, by decide⟩
    · split at ht
      · exact absurd ht (by simp)
      · have ht2 : Thrown.jsError ERROR_MESSAGE.DATA_NOT_INTEGRITY = t := by
          injection ht
        rw [← ht2]
        exact ⟨by decide, by decide⟩
  · intro hc
    refine ⟨?_, ?_, ?_, ?_⟩
    · intro t ht
      simp only [PayOS.createPaymentLink] at ht
      split at ht
      · have ht2 : Thrown.jsError ("The following fields are required: " ++
            String.intercalate ", "
              (requiredFields.filter (fun k => !(getField p k).truthy))) = t := by
          injection ht
        rw [← ht2]
        exact required_msg_ne _
      · exact handleOutcome_neverUnused c.checksumKey outcome hc t ht
    · intro t ht
      simp only [PayOS.getPaymentLinkInformation] at ht
      split at ht
      · have ht2 : Thrown.jsError ERROR_MESSAGE.INVALID_PARAMETER = t := by injection ht
        rw [← ht2]
        exact ⟨by decide, by decide⟩
      · exact handleOutcome_neverUnused c.checksumKey outcome hc t ht
    · intro t ht
      simp only [PayOS.cancelPaymentLink] at ht
      split at ht
      · have ht2 : Thrown.jsError ERROR_MESSAGE.INVALID_PARAMETER = t := by injection ht
        rw [← ht2]
        exact ⟨by decide, by decide⟩
      · exact handleOutcome_neverUnused c.checksumKey outcome hc t ht
    · intro t ht
      rcases outcome with env | e
      · simp only [PayOS.confirmWebhook] at ht
        split at ht
        · have ht2 : Thrown.jsError ERROR_MESSAGE.INVALID_PARAMETER = t := by
            injection ht
          rw [← ht2]
          exact ⟨by decide, by decide⟩
        · exact absurd ht (by simp)
      · simp only [PayOS.confirmWebhook] at ht
        split at ht
        · have ht2 : Thrown.jsError ERROR_MESSAGE.INVALID_PARAMETER = t := by
            injection ht
          rw [← ht2]
          exact ⟨by decide, by decide⟩
        · split_ifs at ht
          · have ht2 : Thrown.payosError ERROR_CODE.INTERNAL_SERVER_ERROR
                ERROR_MESSAGE.WEBHOOK_URL_INVALID = t := by
              injection ht
            rw [← ht2]
            exact ⟨by decide, by decide⟩
          · have ht2 : Thrown.payosError ERROR_CODE.UNAUTHORIZED
                ERROR_MESSAGE.UNAUTHORIZED = t := by
              injection ht
            rw [← ht2]
            exact ⟨by decide, by decide⟩
          · have ht2 : Thrown.payosError ERROR_CODE.INTERNAL_SERVER_ERROR
                ERROR_MESSAGE.INTERNAL_SERVER_ERROR = t := by
              injection ht
            rw [← ht2]
            exact ⟨by decide, by decide⟩
          · have ht2 : rewrapFail e = t := by
              injection ht
            rw [← ht2]
            exact rewrapFail_neverUnused e hc

/-- Witness for C10: a webhook body with data present and no signature
field is rejected with the integrity error, and the empty checksum key
makes the recomputed signature null. -/
theorem claim_c10_witness :
    (PayOS.mk "cid" "api" "k").verifyWebhookData ⟨some [("a", JSVal.str "b")], none⟩ =
      .error (.jsError ERROR_MESSAGE.DATA_NOT_INTEGRITY) ∧
    createSignatureFromObject (some [("a", JSVal.str "b")]) "" = none :=
  ⟨(claim_c10_rejections_and_unused (PayOS.mk "cid" "api" "k")
      ⟨some [("a", JSVal.str "b")], none⟩ [("a", JSVal.str "b")] [] (.str "x") none "u"
      (.fail ⟨none, none⟩)).1 rfl rfl,
    ((claim_c10_rejections_and_unused (PayOS.mk "cid" "api" "")
      ⟨some [("a", JSVal.str "b")], none⟩ [("a", JSVal.str "b")] [] (.str "x") none "u"
      (.fail ⟨none, none⟩)).2.1 rfl).1⟩
